import Mathlib

/-!
Shallow embedding of the context-construction and device-selection
subsystem of cf4ocl (src/lib/context.c), together with theorems checking
the natural-language specification against the code.

Native handles (cl_device_id, cl_platform_id, cl_context) are modelled as
natural numbers, with 0 playing the role of the C NULL pointer.  The
external OpenCL collaborator (device/context info queries, context
creation and retention) is modelled as an explicit state value threaded
through the operations.  GLib errors (GError) are modelled as an
`Option GError` output; `none` means the error location was left unset.
-/

namespace Cf4ocl

/-- Recoverable error conditions surfaced through the GError output:
`deviceNotFound` is CL4_ERROR_DEVICE_NOT_FOUND, `oclError` is CL4_ERROR_OCL
carrying the native status, `infoError` stands for a failed info query
propagated from a collaborator. -/
inductive GError where
  | deviceNotFound : GError
  | oclError (status : Int) : GError
  | infoError : GError
deriving DecidableEq

/-- State of the external OpenCL layer, specified only at its interface
boundary (spec sections 1 and 6): per-device platform query results and
their success flags, per-context device lists and info-query success
flags, per-context retain status, the status returned by context
creation, and a counter for fresh native context handles. -/
structure OclWorld where
  devicePlatform : Nat → Nat
  deviceInfoOk : Nat → Bool
  ctxDevices : Nat → List Nat
  ctxInfoOk : Nat → Bool
  retainStatus : Nat → Int
  createStatus : Int
  nextCtx : Nat

/-- The context wrapper object (struct cl4_context): parent wrapper
fields (reference count and wrapped native object), optional platform
wrapper, number of devices and the optional device-wrapper array, both
lazily initializable.  Device wrappers are represented by the device
handle they wrap; `devices = none` is the NULL (unmaterialized) array. -/
structure CL4Context where
  refCount : Nat
  clObject : Nat
  platform : Option Nat
  numDevices : Nat
  devices : Option (List Nat)
deriving DecidableEq

/-- Internal context wrapper build function (cl4_context_new_internal):
a wrapper with empty fields and a reference count of 1 (cl4_wrapper_init
is modelled from the spec: wrap initializes ref_count = 1). -/
def cl4_context_new_internal : CL4Context :=
  { refCount := 1, clObject := 0, platform := none, numDevices := 0, devices := none }

/-- Size in bytes of a cl_device_id handle, used when converting the byte
size of the CL_CONTEXT_DEVICES query result into a device count. -/
def sizeofDeviceId : Nat := 8

/-- Result of an info query (CL4WrapperInfo): a byte size and the value,
here the list of device handles whose byte size it is. -/
structure CL4WrapperInfo where
  size : Nat
  value : List Nat
deriving DecidableEq

/-- Modelled from the spec: `cl4_context_info` (the generic query API
`context_info(ctx, info_key) -> \x7bsize, raw_bytes\x7d | Error` of section 6) for
the CL_CONTEXT_DEVICES key — it mirrors the native context metadata
query, returning the native context's device-handle list as a byte
buffer tagged with its size, or an error when the native query fails.
Its implementation is not part of the provided sources. -/
def cl4_context_info_devices (w : OclWorld) (ctx : CL4Context) :
    Except GError CL4WrapperInfo :=
  if w.ctxInfoOk ctx.clObject then
    .ok { size := (w.ctxDevices ctx.clObject).length * sizeofDeviceId,
          value := w.ctxDevices ctx.clObject }
  else
    .error .infoError

/-- Initialize the internal device list of a context wrapper
(cl4_context_init_devices): if the device array is already set, do
nothing; otherwise query CL_CONTEXT_DEVICES, on error propagate it
leaving the wrapper untouched, and on success set num_devices to the
byte size divided by the device-handle size and wrap each returned
handle (devices[i] = cl4_device_new(value[i]) for i < num_devices). -/
def cl4_context_init_devices (w : OclWorld) (ctx : CL4Context) :
    CL4Context × Option GError :=
  match ctx.devices with
  | some _ => (ctx, none)
  | none =>
    match cl4_context_info_devices w ctx with
    | .error e => (ctx, some e)
    | .ok info =>
      let n := info.size / sizeofDeviceId
      ({ ctx with numDevices := n,
                  devices := some ((List.range n).map fun i => info.value.getD i 0) },
       none)

/-- Output of cl4_context_num_devices: the returned count, the context
wrapper state after the call, and the caller's error location. -/
structure NumDevicesOut where
  num : Nat
  ctx : CL4Context
  errOut : Option GError
deriving DecidableEq

/-- Return the number of devices in context (cl4_context_num_devices):
initialize the device list if it is not set, then return
ctx->num_devices regardless of whether initialization succeeded. -/
def cl4_context_num_devices (w : OclWorld) (ctx : CL4Context) : NumDevicesOut :=
  if ctx.devices.isNone then
    let r := cl4_context_init_devices w ctx
    { num := r.1.numDevices, ctx := r.1, errOut := r.2 }
  else
    { num := ctx.numDevices, ctx := ctx, errOut := none }

/-- How cl4_context_get_device terminated: `ok` returns the device
wrapper at the index, `errorNull` is the error-handler path (NULL return
with the error location set), `precondNull` is the g_return_val_if_fail
path (NULL return with the error location untouched). -/
inductive GetDeviceResult where
  | ok (d : Nat) : GetDeviceResult
  | errorNull : GetDeviceResult
  | precondNull : GetDeviceResult
deriving DecidableEq

/-- Output of cl4_context_get_device: the outcome, the context wrapper
state after the call, and the caller's error location. -/
structure GetDeviceOut where
  res : GetDeviceResult
  ctx : CL4Context
  errOut : Option GError
deriving DecidableEq

/-- Get the device wrapper at a given index (cl4_context_get_device):
initialize the device list if it is not set, propagating any error; then
check index < ctx->num_devices with g_return_val_if_fail (returning NULL
without touching the error location when the check fails); otherwise
return ctx->devices[index]. -/
def cl4_context_get_device (w : OclWorld) (ctx : CL4Context) (index : Nat) :
    GetDeviceOut :=
  if ctx.devices.isNone then
    let r := cl4_context_init_devices w ctx
    match r.2 with
    | some e => { res := .errorNull, ctx := r.1, errOut := some e }
    | none =>
      if index < r.1.numDevices then
        { res := .ok ((r.1.devices.getD []).getD index 0), ctx := r.1, errOut := none }
      else
        { res := .precondNull, ctx := r.1, errOut := none }
  else
    if index < ctx.numDevices then
      { res := .ok ((ctx.devices.getD []).getD index 0), ctx := ctx, errOut := none }
    else
      { res := .precondNull, ctx := ctx, errOut := none }

/-- Modelled from the spec: `cl4_wrapper_unref` — section 4.1 release:
ref_count -= 1; when it reaches 0, the native handle is returned to the
caller's destructor logic, otherwise nothing (NULL) is returned.  Its
implementation is not part of the provided sources.  Returns the new
reference count and the returned handle (0 = NULL). -/
def cl4_wrapper_unref (refCount clObject : Nat) : Nat × Nat :=
  let rc := refCount - 1
  (rc, if rc = 0 then clObject else 0)

/-- Observable effects of one cl4_context_destroy call: the wrapper's
reference count afterwards, the device wrappers unreferenced (in order),
whether the device array was freed, whether the platform wrapper was
unreferenced, whether the CL4Context slice itself was freed, and whether
the native context-release callback was invoked. -/
structure DestroyEffects where
  ctxRefCount : Nat
  releasedDevices : List Nat
  freedDeviceArray : Bool
  releasedPlatform : Bool
  freedWrapper : Bool
  releasedNative : Bool
deriving DecidableEq

/-- Decrement the reference count of the context wrapper
(cl4_context_destroy): unref the parent wrapper; only if that returned a
non-NULL OpenCL context does it unref each non-NULL device wrapper, free
the device array (when present), unref the platform wrapper (when
present), free the CL4Context slice, and release the OpenCL context. -/
def cl4_context_destroy (ctx : CL4Context) : DestroyEffects :=
  let u := cl4_wrapper_unref ctx.refCount ctx.clObject
  if u.2 ≠ 0 then
    { ctxRefCount := u.1,
      releasedDevices := (ctx.devices.getD []).filter (fun d => d ≠ 0),
      freedDeviceArray := ctx.devices.isSome,
      releasedPlatform := ctx.platform.isSome,
      freedWrapper := true,
      releasedNative := true }
  else
    { ctxRefCount := u.1, releasedDevices := [], freedDeviceArray := false,
      releasedPlatform := false, freedWrapper := false, releasedNative := false }

/-- The CL_CONTEXT_PLATFORM property key (0x1084). -/
def CL_CONTEXT_PLATFORM : Int := 4228

/-- The context properties value handed to clCreateContext: the caller's
properties used verbatim, a synthesized default set, or the allocated
but never initialized block that cl4_context_properties_default returns
on its error path. -/
inductive CtxProps where
  | supplied (ps : List Int) : CtxProps
  | synthesized (ps : List Int) : CtxProps
  | garbage : CtxProps
deriving DecidableEq

/-- Create a default context properties object if required
(cl4_context_properties_default): when the properties parameter is not
NULL it is returned unchanged; when it is NULL a three-entry block is
allocated and filled with CL_CONTEXT_PLATFORM, the platform queried from
the reference device, and 0 — if that query fails the error is set and
the allocated (uninitialized) block is returned. -/
def cl4_context_properties_default (w : OclWorld) (properties : Option (List Int))
    (device : Nat) : CtxProps × Option GError :=
  match properties with
  | some ps => (.supplied ps, none)
  | none =>
    if w.deviceInfoOk device then
      (.synthesized [CL_CONTEXT_PLATFORM, Int.ofNat (w.devicePlatform device), 0], none)
    else
      (.garbage, some .infoError)

/-- Result of the native clCreateContext call: the created context
handle (0 = NULL on failure), the status code (0 = CL_SUCCESS) and the
native state afterwards, which records the device list of the newly
created context. -/
structure CreateRes where
  handle : Nat
  status : Int
  world : OclWorld

/-- Native clCreateContext, modelled at the interface boundary: on
success it produces a fresh non-NULL handle whose device list is the one
passed in; on failure it returns NULL and a non-success status. -/
def clCreateContext (w : OclWorld) (devs : List Nat) : CreateRes :=
  if w.createStatus = 0 then
    let h := w.nextCtx + 1
    { handle := h, status := 0,
      world := { w with ctxDevices := fun x => if x = h then devs else w.ctxDevices x,
                        nextCtx := h } }
  else
    { handle := 0, status := w.createStatus, world := w }

/-- Native clRetainContext, modelled at the interface boundary: returns
the status of retaining the given handle. -/
def clRetainContext (w : OclWorld) (h : Nat) : Int :=
  w.retainStatus h

/-- Modelled from the spec: `cl4_context_unwrap` — section 4.1 unwrap
returns the native handle without affecting the count.  Its
implementation is not part of the provided sources. -/
def cl4_context_unwrap (ctx : CL4Context) : Nat :=
  ctx.clObject

/-- Outcome of a constructor call: the returned wrapper (none = NULL),
the caller's error location at return, the native state afterwards, the
ctx_props value passed to clCreateContext (none when that call was never
reached), whether the finish block freed the ctx_props block (the
cl4_context_properties_default_free macro frees it exactly when the
properties parameter was NULL), the effects of the cleanup
cl4_context_destroy call when the error handler ran, and whether the
finish block dereferenced a NULL devices array pointer. -/
structure CtorResult where
  ctx : Option CL4Context
  errOut : Option GError
  world : OclWorld
  usedProps : Option CtxProps
  freedProps : Bool
  destroyEffects : Option DestroyEffects
  nullDeref : Bool

/-- Create a context wrapper from explicit native device handles
(cl4_context_new_from_cldevices_full): precondition checks return NULL
without touching the error location; otherwise each handle is wrapped
eagerly and num_devices stored, default properties are determined (the
resulting internal error is never propagated — there is no check after
the cl4_context_properties_default call), clCreateContext is invoked,
and on its failure the error handler sets the error, destroys the
partially built wrapper and returns NULL. -/
def cl4_context_new_from_cldevices_full (w : OclWorld)
    (properties : Option (List Int)) (devices : List Nat) : CtorResult :=
  if devices.isEmpty then
    { ctx := none, errOut := none, world := w, usedProps := none,
      freedProps := false, destroyEffects := none, nullDeref := false }
  else if devices.contains 0 then
    { ctx := none, errOut := none, world := w, usedProps := none,
      freedProps := false, destroyEffects := none, nullDeref := false }
  else
    let ctx0 : CL4Context :=
      { cl4_context_new_internal with numDevices := devices.length,
                                      devices := some devices }
    let pd := cl4_context_properties_default w properties (devices.headD 0)
    let cr := clCreateContext w devices
    let ctx1 := { ctx0 with clObject := cr.handle }
    if cr.status ≠ 0 then
      { ctx := none, errOut := some (.oclError cr.status), world := cr.world,
        usedProps := some pd.1, freedProps := properties.isNone,
        destroyEffects := some (cl4_context_destroy ctx1), nullDeref := false }
    else
      { ctx := some ctx1, errOut := none, world := cr.world,
        usedProps := some pd.1, freedProps := properties.isNone,
        destroyEffects := none, nullDeref := false }

/-- Modelled from the spec: the outcome of `cl4_devsel_select` — the
selection engine evaluates the filter chain against the candidate
universe and produces a candidate list (possibly empty) of device
wrappers, or fails with an error and no list (section 4.2).  Its
implementation is not part of the provided sources, so the constructor
below is parameterized by this outcome. -/
inductive SelectOutcome where
  | ok (devs : List Nat) : SelectOutcome
  | error (e : GError) : SelectOutcome
deriving DecidableEq

/-- Extra observable of the filtered constructor: the outcomes of the
g_warn_if_fail(p_cmp == p_base) check, one entry per loop iteration in
selection order (true = the warning fired). -/
structure FiltersResult extends CtorResult where
  warnings : List Bool

/-- Create a context wrapper selecting devices with a set of filters
(cl4_context_new_from_filters_full): run the selection engine and
propagate its error (in which case the finish block dereferences the
NULL devices pointer when sizing the cl_device_id array); fail with
CL4_ERROR_DEVICE_NOT_FOUND when no device was selected; determine the
base platform from the first selected device; for each selected device
query the platform of devices->pdata[0] (as the source does) and warn if
it differs from the base platform; determine context properties
(propagating failure); create the native context (propagating failure);
on success adopt the selected device wrappers and their count into the
context wrapper.  Every error path destroys the partially built wrapper,
sets the error location and returns NULL. -/
def cl4_context_new_from_filters_full (w : OclWorld)
    (properties : Option (List Int)) (sel : SelectOutcome) : FiltersResult :=
  let ctx0 := cl4_context_new_internal
  match sel with
  | .error e =>
    { ctx := none, errOut := some e, world := w, usedProps := none,
      freedProps := properties.isNone,
      destroyEffects := some (cl4_context_destroy ctx0),
      nullDeref := true, warnings := [] }
  | .ok devs =>
    if devs.length = 0 then
      { ctx := none, errOut := some .deviceNotFound, world := w,
        usedProps := none, freedProps := properties.isNone,
        destroyEffects := some (cl4_context_destroy ctx0),
        nullDeref := false, warnings := [] }
    else if ¬ w.deviceInfoOk (devs.headD 0) then
      { ctx := none, errOut := some .infoError, world := w,
        usedProps := none, freedProps := properties.isNone,
        destroyEffects := some (cl4_context_destroy ctx0),
        nullDeref := false, warnings := [] }
    else
      let p_base := w.devicePlatform (devs.headD 0)
      let warnings := devs.map fun _ =>
        decide (w.devicePlatform (devs.headD 0) ≠ p_base)
      let pd := cl4_context_properties_default w properties (devs.headD 0)
      match pd.2 with
      | some e =>
        { ctx := none, errOut := some e, world := w, usedProps := none,
          freedProps := properties.isNone,
          destroyEffects := some (cl4_context_destroy ctx0),
          nullDeref := false, warnings := warnings }
      | none =>
        let cr := clCreateContext w devs
        let ctx1 := { ctx0 with clObject := cr.handle }
        if cr.status ≠ 0 then
          { ctx := none, errOut := some (.oclError cr.status), world := cr.world,
            usedProps := some pd.1, freedProps := properties.isNone,
            destroyEffects := some (cl4_context_destroy ctx1),
            nullDeref := false, warnings := warnings }
        else
          { ctx := some { ctx1 with numDevices := devs.length,
                                    devices := some devs },
            errOut := none, world := cr.world, usedProps := some pd.1,
            freedProps := properties.isNone, destroyEffects := none,
            nullDeref := false, warnings := warnings }

/-- Outcome of cl4_context_new_from_clcontext: the returned wrapper
(none = NULL), the caller's error location, and the effects of the
cleanup destroy call when the error handler ran. -/
structure FromClctxResult where
  ctx : Option CL4Context
  errOut : Option GError
  destroyEffects : Option DestroyEffects

/-- Create a context wrapper from an existing cl_context object
(cl4_context_new_from_clcontext): a NULL context is a precondition
failure returning NULL with the error location untouched; otherwise a
fresh wrapper adopts the handle, clRetainContext is called and on its
failure the error handler sets the error, destroys the wrapper and
returns NULL; the device list is left unmaterialized. -/
def cl4_context_new_from_clcontext (w : OclWorld) (context : Nat) :
    FromClctxResult :=
  if context = 0 then
    { ctx := none, errOut := none, destroyEffects := none }
  else
    let ctx0 := { cl4_context_new_internal with clObject := context }
    let st := clRetainContext w context
    if st ≠ 0 then
      { ctx := none, errOut := some (.oclError st),
        destroyEffects := some (cl4_context_destroy ctx0) }
    else
      { ctx := some ctx0, errOut := none, destroyEffects := none }

/-- Concrete native-layer state for witnesses: every query succeeds,
device 1 lives on platform 10 and every other device on platform 20,
retention succeeds and context creation succeeds. -/
def Wok : OclWorld :=
  { devicePlatform := fun d => if d = 1 then 10 else 20,
    deviceInfoOk := fun _ => true,
    ctxDevices := fun _ => [],
    ctxInfoOk := fun _ => true,
    retainStatus := fun _ => 0,
    createStatus := 0,
    nextCtx := 100 }

/-- Variant of `Wok` in which every device-info query fails. -/
def WnoDevInfo : OclWorld := { Wok with deviceInfoOk := fun _ => false }

/-- Variant of `Wok` in which native context creation fails with status -5. -/
def WcreateFail : OclWorld := { Wok with createStatus := -5 }

/-- Variant of `Wok` in which every context-info query fails. -/
def WnoCtxInfo : OclWorld := { Wok with ctxInfoOk := fun _ => false }

/-- Concrete context wrapper with a materialized two-device list, used
as witness input. -/
def ctxMaterialized : CL4Context :=
  { refCount := 1, clObject := 9, platform := some 4, numDevices := 2,
    devices := some [5, 6] }

/-- Concrete context wrapper with an unmaterialized device list, used as
witness input. -/
def ctxLazy : CL4Context :=
  { refCount := 1, clObject := 9, platform := none, numDevices := 0,
    devices := none }

/-- Mapping index i to the i-th element of a list over its whole range
reproduces the list (the wrapping loop of cl4_context_init_devices). -/
theorem range_map_getD (l : List Nat) :
    (List.range l.length).map (fun i => l.getD i 0) = l := by
  induction l with
  | nil => rfl
  | cons a t ih =>
    rw [List.length_cons, List.range_succ_eq_map, List.map_cons, List.map_map]
    simp only [Function.comp_def, List.getD_cons_succ, List.getD_cons_zero]
    exact congrArg (List.cons a) ih

/-- On an unmaterialized wrapper whose context-info query succeeds,
cl4_context_init_devices caches one device wrapper per handle returned
by the query and sets num_devices to the byte size divided by the
handle size. -/
theorem init_devices_ok (w : OclWorld) (ctx : CL4Context)
    (h1 : ctx.devices = none) (h2 : w.ctxInfoOk ctx.clObject = true) :
    cl4_context_init_devices w ctx =
      ({ ctx with numDevices := (w.ctxDevices ctx.clObject).length,
                  devices := some (w.ctxDevices ctx.clObject) }, none) := by
  have hdiv : (w.ctxDevices ctx.clObject).length * sizeofDeviceId / sizeofDeviceId
      = (w.ctxDevices ctx.clObject).length := by
    simp [sizeofDeviceId]
  simp only [cl4_context_init_devices, cl4_context_info_devices, h1, h2, if_true]
  rw [hdiv, range_map_getD]

/-- On an unmaterialized wrapper whose context-info query fails,
cl4_context_init_devices leaves the wrapper unchanged and reports the
error. -/
theorem init_devices_err (w : OclWorld) (ctx : CL4Context)
    (h1 : ctx.devices = none) (h2 : w.ctxInfoOk ctx.clObject = false) :
    cl4_context_init_devices w ctx = (ctx, some .infoError) := by
  simp only [cl4_context_init_devices, cl4_context_info_devices, h1, h2]
  rfl

/-- C2: for every filter chain whose evaluation by the selection engine
produces an empty candidate list, cl4_context_new_from_filters_full
fails with the DEVICE_NOT_FOUND error condition, sets the error output,
and returns no context object (NULL). -/
theorem C2_empty_selection_device_not_found (w : OclWorld)
    (properties : Option (List Int)) :
    (cl4_context_new_from_filters_full w properties (.ok [])).ctx = none ∧
    (cl4_context_new_from_filters_full w properties (.ok [])).errOut =
      some .deviceNotFound := by
  constructor <;> rfl

/-- C5: a wrapper built from an external native context handle has no
device list and a zero count; the first num_devices (or get_device) call
queries the native context's device list, sets num_devices to the byte
size divided by the device-handle size, wraps each returned handle and
caches both, so the materialized list's length equals the device count
reported by the query. -/
theorem C5_lazy_materialization_matches_query (w : OclWorld) (h : Nat)
    (c : CL4Context)
    (hc : (cl4_context_new_from_clcontext w h).ctx = some c)
    (hq : w.ctxInfoOk h = true) :
    c.devices = none ∧ c.numDevices = 0 ∧
    (cl4_context_num_devices w c).ctx.devices = some (w.ctxDevices h) ∧
    (cl4_context_num_devices w c).ctx.numDevices =
      ((w.ctxDevices h).length * sizeofDeviceId) / sizeofDeviceId ∧
    (cl4_context_num_devices w c).num = (w.ctxDevices h).length ∧
    ((cl4_context_num_devices w c).ctx.devices.getD []).length =
      (w.ctxDevices h).length ∧
    (cl4_context_get_device w c 0).ctx.devices = some (w.ctxDevices h) := by
  have hc' : c = { refCount := 1, clObject := h, platform := none,
                   numDevices := 0, devices := none } := by
    by_cases h0 : h = 0
    · simp [cl4_context_new_from_clcontext, h0] at hc
    · by_cases hr : clRetainContext w h = 0
      · simp [cl4_context_new_from_clcontext, cl4_context_new_internal, h0, hr] at hc
        exact hc.symm
      · simp [cl4_context_new_from_clcontext, h0, hr] at hc
  subst hc'
  have hinit := init_devices_ok w
    { refCount := 1, clObject := h, platform := none, numDevices := 0,
      devices := none } rfl hq
  refine ⟨rfl, rfl, ?_, ?_, ?_, ?_, ?_⟩
  · simp [cl4_context_num_devices, hinit]
  · simp [cl4_context_num_devices, hinit, sizeofDeviceId]
  · simp [cl4_context_num_devices, hinit]
  · simp [cl4_context_num_devices, hinit]
  · by_cases hl : 0 < (w.ctxDevices h).length
    · simp [cl4_context_get_device, hinit, hl]
    · simp [cl4_context_get_device, hinit, hl]

/-- Witness for C5 at a concrete world and handle. -/
theorem C5_lazy_materialization_matches_query_witness :
    ((cl4_context_new_from_clcontext Wok 9).ctx = some ctxLazy ∧
     Wok.ctxInfoOk 9 = true) ∧
    (ctxLazy.devices = none ∧ ctxLazy.numDevices = 0 ∧
     (cl4_context_num_devices Wok ctxLazy).ctx.devices = some (Wok.ctxDevices 9) ∧
     (cl4_context_num_devices Wok ctxLazy).ctx.numDevices =
       ((Wok.ctxDevices 9).length * sizeofDeviceId) / sizeofDeviceId ∧
     (cl4_context_num_devices Wok ctxLazy).num = (Wok.ctxDevices 9).length ∧
     ((cl4_context_num_devices Wok ctxLazy).ctx.devices.getD []).length =
       (Wok.ctxDevices 9).length ∧
     (cl4_context_get_device Wok ctxLazy 0).ctx.devices =
       some (Wok.ctxDevices 9)) :=
  ⟨⟨by decide, by decide⟩,
   C5_lazy_materialization_matches_query Wok 9 ctxLazy (by decide) (by decide)⟩

/-- C6: for every context wrapper and index at least the (possibly just
materialized) device count, cl4_context_get_device fails through the
precondition check: it returns NULL immediately and never sets the error
output (the failure is not surfaced as a recoverable error value). -/
theorem C6_out_of_range_is_precondition (w : OclWorld) (ctx : CL4Context)
    (index : Nat)
    (h1 : ((cl4_context_get_device w ctx index).ctx).devices.isSome = true)
    (h2 : ((cl4_context_get_device w ctx index).ctx).numDevices ≤ index) :
    (cl4_context_get_device w ctx index).res = .precondNull ∧
    (cl4_context_get_device w ctx index).errOut = none := by
  rcases hd : ctx.devices with _ | ds
  · by_cases hio : w.ctxInfoOk ctx.clObject = true
    · have hinit := init_devices_ok w ctx hd hio
      by_cases hlt : index < (w.ctxDevices ctx.clObject).length
      · simp [cl4_context_get_device, hd, hinit, hlt] at h2
        exact absurd hlt (Nat.not_lt.mpr h2)
      · simp [cl4_context_get_device, hd, hinit, hlt]
    · have hio' : w.ctxInfoOk ctx.clObject = false := by simpa using hio
      have hinit := init_devices_err w ctx hd hio'
      simp [cl4_context_get_device, hd, hinit] at h1
  · by_cases hlt : index < ctx.numDevices
    · simp [cl4_context_get_device, hd, hlt] at h2
      exact absurd hlt (Nat.not_lt.mpr h2)
    · simp [cl4_context_get_device, hd, hlt]

/-- Witness for C6 at a concrete wrapper and out-of-range index. -/
theorem C6_out_of_range_is_precondition_witness :
    (((cl4_context_get_device Wok ctxMaterialized 3).ctx).devices.isSome = true ∧
     ((cl4_context_get_device Wok ctxMaterialized 3).ctx).numDevices ≤ 3) ∧
    ((cl4_context_get_device Wok ctxMaterialized 3).res = .precondNull ∧
     (cl4_context_get_device Wok ctxMaterialized 3).errOut = none) :=
  ⟨⟨by decide, by decide⟩,
   C6_out_of_range_is_precondition Wok ctxMaterialized 3 (by decide) (by decide)⟩

/-- C10: when lazy materialization fails, the wrapper is left unchanged
(devices unset, num_devices still 0), cl4_context_num_devices returns 0
with the error set, cl4_context_get_device returns NULL with the error
set, and a later call against a recovered native layer re-attempts
materialization and succeeds rather than returning a cached failure. -/
theorem C10_failed_materialization_leaves_state (w w2 : OclWorld)
    (ctx : CL4Context)
    (h1 : ctx.devices = none) (h2 : ctx.numDevices = 0)
    (h3 : w.ctxInfoOk ctx.clObject = false)
    (h4 : w2.ctxInfoOk ctx.clObject = true) :
    (cl4_context_num_devices w ctx).num = 0 ∧
    (cl4_context_num_devices w ctx).errOut = some .infoError ∧
    (cl4_context_num_devices w ctx).ctx = ctx ∧
    (cl4_context_get_device w ctx 0).ctx = ctx ∧
    (cl4_context_get_device w ctx 0).res = .errorNull ∧
    (cl4_context_num_devices w2 (cl4_context_num_devices w ctx).ctx).ctx.devices =
      some (w2.ctxDevices ctx.clObject) := by
  have hinit := init_devices_err w ctx h1 h3
  have hinit2 := init_devices_ok w2 ctx h1 h4
  simp [cl4_context_num_devices, cl4_context_get_device, h1, h2, hinit, hinit2]

/-- Witness for C10 at a concrete failing world, wrapper and recovered
world. -/
theorem C10_failed_materialization_leaves_state_witness :
    (ctxLazy.devices = none ∧ ctxLazy.numDevices = 0 ∧
     WnoCtxInfo.ctxInfoOk ctxLazy.clObject = false ∧
     Wok.ctxInfoOk ctxLazy.clObject = true) ∧
    ((cl4_context_num_devices WnoCtxInfo ctxLazy).num = 0 ∧
     (cl4_context_num_devices WnoCtxInfo ctxLazy).errOut = some .infoError ∧
     (cl4_context_num_devices WnoCtxInfo ctxLazy).ctx = ctxLazy ∧
     (cl4_context_get_device WnoCtxInfo ctxLazy 0).ctx = ctxLazy ∧
     (cl4_context_get_device WnoCtxInfo ctxLazy 0).res = .errorNull ∧
     (cl4_context_num_devices Wok
        (cl4_context_num_devices WnoCtxInfo ctxLazy).ctx).ctx.devices =
       some (Wok.ctxDevices ctxLazy.clObject)) :=
  ⟨⟨by decide, by decide, by decide, by decide⟩,
   C10_failed_materialization_leaves_state WnoCtxInfo Wok ctxLazy
     (by decide) (by decide) (by decide) (by decide)⟩

/-- C7: cl4_context_destroy decrements the reference count; while the
count stays above zero nothing but the counter changes, and when it
reaches zero every owned device wrapper is released exactly once, the
optional platform wrapper is released, the device array and the wrapper
object are freed, and the native context-release callback is invoked
exactly once.  Every wrapper a constructor returned wraps a non-NULL
native context, which is the hypothesis used here. -/
theorem C7_destroy_release_semantics (ctx : CL4Context)
    (h1 : ctx.clObject ≠ 0) (h2 : 0 ∉ ctx.devices.getD []) :
    (1 < ctx.refCount →
       cl4_context_destroy ctx =
         { ctxRefCount := ctx.refCount - 1, releasedDevices := [],
           freedDeviceArray := false, releasedPlatform := false,
           freedWrapper := false, releasedNative := false }) ∧
    (ctx.refCount = 1 →
       cl4_context_destroy ctx =
         { ctxRefCount := 0, releasedDevices := ctx.devices.getD [],
           freedDeviceArray := ctx.devices.isSome,
           releasedPlatform := ctx.platform.isSome,
           freedWrapper := true, releasedNative := true }) := by
  constructor
  · intro hrc
    have hne : ctx.refCount - 1 ≠ 0 := by omega
    simp [cl4_context_destroy, cl4_wrapper_unref, hne]
  · intro hrc
    simp [cl4_context_destroy, cl4_wrapper_unref, hrc, h1]
    intro a ha he
    exact h2 (he ▸ ha)

/-- Witness for C7 at a concrete wrapper whose count reaches zero. -/
theorem C7_destroy_release_semantics_witness :
    (ctxMaterialized.clObject ≠ 0 ∧ 0 ∉ ctxMaterialized.devices.getD []) ∧
    ((1 < ctxMaterialized.refCount →
        cl4_context_destroy ctxMaterialized =
          { ctxRefCount := ctxMaterialized.refCount - 1, releasedDevices := [],
            freedDeviceArray := false, releasedPlatform := false,
            freedWrapper := false, releasedNative := false }) ∧
     (ctxMaterialized.refCount = 1 →
        cl4_context_destroy ctxMaterialized =
          { ctxRefCount := 0, releasedDevices := ctxMaterialized.devices.getD [],
            freedDeviceArray := ctxMaterialized.devices.isSome,
            releasedPlatform := ctxMaterialized.platform.isSome,
            freedWrapper := true, releasedNative := true })) :=
  ⟨⟨by decide, by decide⟩,
   C7_destroy_release_semantics ctxMaterialized (by decide) (by decide)⟩

/-- C8: in both the explicit-devices and the filtered constructor, a
non-NULL properties parameter is passed verbatim to clCreateContext and
is not freed, while a NULL one is replaced by a synthesized three-entry
set — the platform-property key, the platform of the first device, and
a terminating zero — which is freed before the constructor returns. -/
theorem C8_properties_verbatim_or_default (w : OclWorld) (ps : List Int)
    (devs sel : List Nat)
    (h1 : devs ≠ []) (h2 : devs.contains 0 = false) (h3 : sel ≠ [])
    (h4 : w.deviceInfoOk (devs.headD 0) = true)
    (h5 : w.deviceInfoOk (sel.headD 0) = true) :
    ((cl4_context_new_from_cldevices_full w (some ps) devs).usedProps =
        some (.supplied ps) ∧
     (cl4_context_new_from_cldevices_full w (some ps) devs).freedProps = false) ∧
    ((cl4_context_new_from_cldevices_full w none devs).usedProps =
        some (.synthesized
          [CL_CONTEXT_PLATFORM, Int.ofNat (w.devicePlatform (devs.headD 0)), 0]) ∧
     (cl4_context_new_from_cldevices_full w none devs).freedProps = true) ∧
    ((cl4_context_new_from_filters_full w (some ps) (.ok sel)).usedProps =
        some (.supplied ps) ∧
     (cl4_context_new_from_filters_full w (some ps) (.ok sel)).freedProps = false) ∧
    ((cl4_context_new_from_filters_full w none (.ok sel)).usedProps =
        some (.synthesized
          [CL_CONTEXT_PLATFORM, Int.ofNat (w.devicePlatform (sel.headD 0)), 0]) ∧
     (cl4_context_new_from_filters_full w none (.ok sel)).freedProps = true) := by
  rcases devs with _ | ⟨d, ds⟩
  · exact absurd rfl h1
  rcases sel with _ | ⟨s, ss⟩
  · exact absurd rfl h3
  simp only [List.headD_cons] at h4 h5 ⊢
  simp at h2
  by_cases hcs : w.createStatus = 0 <;>
    refine ⟨⟨?_, ?_⟩, ⟨?_, ?_⟩, ⟨?_, ?_⟩, ⟨?_, ?_⟩⟩ <;>
    simp [cl4_context_new_from_cldevices_full, cl4_context_new_from_filters_full,
      cl4_context_properties_default, clCreateContext, h2, h4, h5, hcs]

/-- Witness for C8 at a concrete world and device lists. -/
theorem C8_properties_verbatim_or_default_witness :
    (([1] : List Nat) ≠ [] ∧ ([1] : List Nat).contains 0 = false ∧
     ([2] : List Nat) ≠ [] ∧ Wok.deviceInfoOk (([1] : List Nat).headD 0) = true ∧
     Wok.deviceInfoOk (([2] : List Nat).headD 0) = true) ∧
    (((cl4_context_new_from_cldevices_full Wok (some [7]) [1]).usedProps =
        some (.supplied [7]) ∧
      (cl4_context_new_from_cldevices_full Wok (some [7]) [1]).freedProps = false) ∧
     ((cl4_context_new_from_cldevices_full Wok none [1]).usedProps =
        some (.synthesized
          [CL_CONTEXT_PLATFORM,
           Int.ofNat (Wok.devicePlatform (([1] : List Nat).headD 0)), 0]) ∧
      (cl4_context_new_from_cldevices_full Wok none [1]).freedProps = true) ∧
     ((cl4_context_new_from_filters_full Wok (some [7]) (.ok [2])).usedProps =
        some (.supplied [7]) ∧
      (cl4_context_new_from_filters_full Wok (some [7]) (.ok [2])).freedProps =
        false) ∧
     ((cl4_context_new_from_filters_full Wok none (.ok [2])).usedProps =
        some (.synthesized
          [CL_CONTEXT_PLATFORM,
           Int.ofNat (Wok.devicePlatform (([2] : List Nat).headD 0)), 0]) ∧
      (cl4_context_new_from_filters_full Wok none (.ok [2])).freedProps = true)) :=
  ⟨⟨by decide, by decide, by decide, by decide, by decide⟩,
   C8_properties_verbatim_or_default Wok [7] [1] [2]
     (by decide) (by decide) (by decide) (by decide) (by decide)⟩

/-- C9: a wrapper c1 successfully built from explicit devices can be
round-tripped — constructing c2 from c1's unwrapped raw native context
handle succeeds, and num_devices of c2 (obtained by lazy
materialization from the native context) equals num_devices of c1. -/
theorem C9_round_trip_num_devices (w : OclWorld) (properties : Option (List Int))
    (devs : List Nat)
    (h1 : devs ≠ []) (h2 : devs.contains 0 = false)
    (h3 : w.createStatus = 0)
    (h4 : w.retainStatus (w.nextCtx + 1) = 0)
    (h5 : w.ctxInfoOk (w.nextCtx + 1) = true) :
    ∃ c1 c2,
      (cl4_context_new_from_cldevices_full w properties devs).ctx = some c1 ∧
      (cl4_context_new_from_clcontext
         (cl4_context_new_from_cldevices_full w properties devs).world
         (cl4_context_unwrap c1)).ctx = some c2 ∧
      (cl4_context_num_devices
         (cl4_context_new_from_cldevices_full w properties devs).world c2).num =
      (cl4_context_num_devices
         (cl4_context_new_from_cldevices_full w properties devs).world c1).num := by
  rcases devs with _ | ⟨d, ds⟩
  · exact absurd rfl h1
  simp at h2
  refine ⟨{ refCount := 1, clObject := w.nextCtx + 1, platform := none,
            numDevices := (d :: ds).length, devices := some (d :: ds) },
          { refCount := 1, clObject := w.nextCtx + 1, platform := none,
            numDevices := 0, devices := none }, ?_, ?_, ?_⟩
  · simp [cl4_context_new_from_cldevices_full, cl4_context_new_internal,
      clCreateContext, h2, h3]
  · simp [cl4_context_new_from_cldevices_full, cl4_context_new_from_clcontext,
      cl4_context_new_internal, cl4_context_unwrap, clCreateContext,
      clRetainContext, h2, h3, h4]
  · simp [cl4_context_new_from_cldevices_full, cl4_context_num_devices,
      cl4_context_init_devices, cl4_context_info_devices, clCreateContext,
      h2, h3, h5, sizeofDeviceId]

/-- Witness for C9 at a concrete world and a single explicit device. -/
theorem C9_round_trip_num_devices_witness :
    (([1] : List Nat) ≠ [] ∧ ([1] : List Nat).contains 0 = false ∧
     Wok.createStatus = 0 ∧ Wok.retainStatus (Wok.nextCtx + 1) = 0 ∧
     Wok.ctxInfoOk (Wok.nextCtx + 1) = true) ∧
    (∃ c1 c2,
      (cl4_context_new_from_cldevices_full Wok none [1]).ctx = some c1 ∧
      (cl4_context_new_from_clcontext
         (cl4_context_new_from_cldevices_full Wok none [1]).world
         (cl4_context_unwrap c1)).ctx = some c2 ∧
      (cl4_context_num_devices
         (cl4_context_new_from_cldevices_full Wok none [1]).world c2).num =
      (cl4_context_num_devices
         (cl4_context_new_from_cldevices_full Wok none [1]).world c1).num) :=
  ⟨⟨by decide, by decide, by decide, by decide, by decide⟩,
   C9_round_trip_num_devices Wok none [1]
     (by decide) (by decide) (by decide) (by decide) (by decide)⟩

/-- C1: the filtered constructor is claimed to check, for every selected
device, that the device's platform equals the first selected device's
platform, warning when it differs.  In the source the loop queries the
platform of devices->pdata[0] instead of devices->pdata[i], so with two
selected devices on different platforms no warning ever fires and the
construction proceeds: the per-device comparison never happens. -/
theorem C1_platform_check_compares_first_with_itself :
    Wok.devicePlatform 1 ≠ Wok.devicePlatform 2 ∧
    (cl4_context_new_from_filters_full Wok (some [0]) (.ok [1, 2])).warnings =
      [false, false] ∧
    (cl4_context_new_from_filters_full Wok (some [0]) (.ok [1, 2])).ctx.isSome =
      true := by
  decide

/-- C3: when clCreateContext fails, the explicit-devices constructor's
error handler calls cl4_context_destroy on a wrapper whose native handle
is NULL; cl4_wrapper_unref then hands back NULL, the teardown branch is
skipped, and neither the already-wrapped device wrapper nor the wrapper
object is released — and when the selection engine itself fails, the
filtered constructor's finish block dereferences the NULL devices
pointer while sizing the cl_device_id array. -/
theorem C3_failed_create_skips_cleanup :
    (cl4_context_new_from_cldevices_full WcreateFail none [1]).ctx = none ∧
    (cl4_context_new_from_cldevices_full WcreateFail none [1]).destroyEffects =
      some { ctxRefCount := 0, releasedDevices := [], freedDeviceArray := false,
             releasedPlatform := false, freedWrapper := false,
             releasedNative := false } ∧
    (cl4_context_new_from_filters_full WcreateFail (some [0])
        (.error .infoError)).nullDeref = true := by
  decide

/-- C4: in cl4_context_new_from_cldevices_full there is no propagation
check after the cl4_context_properties_default call; at an input where
determining the default context properties fails, the constructor leaves
the caller's error output unset and still returns a context object
instead of propagating the error and returning NULL. -/
theorem C4_properties_error_not_propagated :
    (cl4_context_properties_default WnoDevInfo none 1).2 = some .infoError ∧
    (cl4_context_new_from_cldevices_full WnoDevInfo none [1]).errOut = none ∧
    (cl4_context_new_from_cldevices_full WnoDevInfo none [1]).ctx.isSome =
      true := by
  decide

end Cf4ocl
